import Mathlib

/-!
# Verification of the Douyu live-room monitor (`main.py`)

Shallow embedding of the room-status resolution pipeline
(`get_room_info` → `get_room_info_backup` → `_try_pc_api`), the cache
update (`check_room_status`), the notification dispatch (`notify`,
`send_server_chan`), the per-room body of the polling loop (`run`) and
the pending-live selection handler (`handle_new_live_rooms`).

Upstream behaviour (HTTP responses, raised exceptions, the regex
extraction results over the fetched mobile page, user input) is supplied
by explicit "world" records, so every embedded function is total and
quantification over worlds covers every behaviour of the upstream
sources. Each function additionally returns the list of HTTP requests
it issued (URL and `timeout` argument) and the list of notification
events it dispatched, so that claims about which sources are consulted,
which calls carry timeouts, and which channels are attempted can be
stated.
-/

namespace Douyu

/-- A Python string-valued dict, as an association list (first binding wins,
mirroring the single-binding-per-key invariant of a Python dict). -/
def Dict : Type := List (String × String)

instance : DecidableEq Dict := by unfold Dict; infer_instance

/-- The empty dict `{}`. -/
def Dict.nil : Dict := []

/-- `d.get(k)`: `none` models Python's `None` (key absent). -/
def Dict.get? (d : Dict) (k : String) : Option String :=
  (d.find? (fun p => p.1 == k)).map (fun p => p.2)

/-- `d.get(k, default)`. -/
def Dict.getD (d : Dict) (k dflt : String) : String :=
  (d.get? k).getD dflt

/-- `d[k] = v`: replace any existing binding for `k`. -/
def Dict.insert (d : Dict) (k v : String) : Dict :=
  (k, v) :: (List.filter (fun p => p.1 != k) d)

/-- Whether `p` is a prefix of `s` (over char lists, by structural
recursion so the kernel can evaluate it). -/
def listStartsWith : List Char → List Char → Bool
  | _, [] => true
  | [], _ :: _ => false
  | a :: s, b :: p => a = b && listStartsWith s p

/-- Whether `p` occurs as a contiguous sublist of `s`. -/
def listContainsSub (p : List Char) : List Char → Bool
  | [] => listStartsWith [] p
  | a :: s => listStartsWith (a :: s) p || listContainsSub p s

/-- Python's `pat in s`. -/
def strContains (s pat : String) : Bool :=
  listContainsSub pat.data s.data

/-- Left-to-right non-overlapping replacement of `p` by `r`, fuelled by
the input length so the recursion is structural; with `fuel = s.length`
the fuel never runs out. -/
def replaceAux (p r : List Char) : Nat → List Char → List Char
  | _, [] => []
  | 0, s => s
  | n + 1, a :: s =>
      if listStartsWith (a :: s) p && !(List.isEmpty p) then
        r ++ replaceAux p r n (List.drop (p.length - 1) s)
      else
        a :: replaceAux p r n s

/-- Python's `s.replace(pat, repl)` for a nonempty `pat`. -/
def pyReplace (s pat repl : String) : String :=
  String.mk (replaceAux pat.data repl.data s.data.length s.data)

/-- Python's `s.strip()`: drop whitespace from both ends. -/
def pyStrip (s : String) : String :=
  String.mk
    (((s.data.dropWhile Char.isWhitespace).reverse.dropWhile
        Char.isWhitespace).reverse)

/-- Splitting a char list on a single character, accumulator-based. -/
def splitOnCharAux (c : Char) : List Char → List Char → List (List Char)
  | [], acc => [acc.reverse]
  | a :: s, acc =>
      if a = c then acc.reverse :: splitOnCharAux c s []
      else splitOnCharAux c s (a :: acc)

/-- Python's `s.split('-')`. -/
def pySplitDash (s : String) : List String :=
  (splitOnCharAux '-' s.data []).map String.mk

/-- One `requests.get`/`requests.post` call: the URL it targets and the
`timeout=` keyword argument it was issued with (`none` = no timeout). -/
structure HttpCall where
  url : String
  timeout : Option Nat
deriving DecidableEq, Repr

/-- Parsed JSON of the primary API (`open.douyu.com/api/RoomApi/room`):
the `error` field as read by `data.get('error')` and the `data` payload
as read by `data.get('data', {})`. -/
structure PrimaryJson where
  error : Option Int
  data : Option Dict
deriving DecidableEq

/-- The regex-extraction results over the fetched mobile page
`html_content`: whether any of the four `is_live_patterns` matched,
the first match groups of the `nickname` / `roomName` / `room_name` /
`<title>` patterns, and whether the page contains one of the two
room-not-found markers. Quantifying over this record covers every
possible page text. -/
structure PageContent where
  isLiveMarker : Bool
  nickname : Option String
  roomName : Option String
  altRoomName : Option String
  title : Option String
  roomNotFound : Bool
deriving DecidableEq

/-- A response to the mobile-page GET (`m.douyu.com`): the final URL
after redirects, the status code, and the page content. -/
structure MobileResp where
  final_url : String
  status_code : Nat
  page : PageContent
deriving DecidableEq

/-- The `room` object of the PC API's JSON (`www.douyu.com/betard`). -/
structure PcRoom where
  room_id : Option String
  room_name : Option String
  show_status : Option Int
  owner_name : Option String
deriving DecidableEq

/-- Parsed JSON of the PC API; `room = none` models both an absent and a
falsy (empty) `room` object, the two cases `data.get('room')` rejects. -/
structure PcJson where
  room : Option PcRoom
deriving DecidableEq

/-- A response to the PC-API GET: status code, and the parsed JSON
(`none` = `.json()` raised, swallowed by the bare `except`). -/
structure PcResp where
  status_code : Nat
  json : Option PcJson
deriving DecidableEq

/-- The behaviour of the upstream sources for one resolution of one
room: for each of the three HTTP GETs, `none` means the call raised
(connection error, timeout, …). `localNotifyRaises` is whether
`notification.notify` raises this cycle, and `now` is the timestamp
string `datetime.now().strftime('%Y-%m-%d %H:%M:%S')` renders. -/
structure RoomWorld where
  primary : Option PrimaryJson
  mobile : Option MobileResp
  pc : Option PcResp
  localNotifyRaises : Bool
  now : String

/-- URL of the primary API for a room. -/
def primaryUrl (room_id : String) : String :=
  "https://open.douyu.com/api/RoomApi/room/" ++ room_id

/-- URL of the mobile page for a room. -/
def mobileUrl (room_id : String) : String :=
  "https://m.douyu.com/" ++ room_id

/-- URL of the PC API for a room. -/
def pcUrl (room_id : String) : String :=
  "https://www.douyu.com/betard/" ++ room_id

/-- The four-field room-info dict every fallback path builds. -/
def mkRoomInfo (room_id room_name room_status owner_name : String) : Dict :=
  [("room_id", room_id), ("room_name", room_name),
   ("room_status", room_status), ("owner_name", owner_name)]

/-- The final `return` of `DouyuMonitor._try_pc_api` (the "all methods
failed" basic info): fall back to the cached name — Python's
`cached_name if cached_name else f'未知主播_{room_id}'` uses truthiness,
so an empty cached string also falls back to the placeholders derived
from the room id, and the status defaults to not-live (`'2'`). -/
def pcFallback (room_names : Dict) (room_id : String) : Dict :=
  match room_names.get? room_id with
  | some n =>
      if n ≠ "" then mkRoomInfo room_id n "2" n
      else mkRoomInfo room_id ("未知房间_" ++ room_id) "2" ("未知主播_" ++ room_id)
  | none => mkRoomInfo room_id ("未知房间_" ++ room_id) "2" ("未知主播_" ++ room_id)

/-- `DouyuMonitor._try_pc_api`: GET the PC API with `timeout=10`; on a
200 response whose JSON has a truthy `room` object with a truthy
`room_id`, build the room info from it; otherwise (raise, non-200,
parse failure, invalid payload) return `pcFallback`. Returns the room
info together with the HTTP calls issued. -/
def tryPcApi (room_names : Dict) (room_id : String) (w : RoomWorld) :
    Dict × List HttpCall :=
  let call : HttpCall := ⟨pcUrl room_id, some 10⟩
  let fallback : Dict := pcFallback room_names room_id
  match w.pc with
  | none => (fallback, [call])
  | some resp =>
      if resp.status_code = 200 then
        match resp.json with
        | some j =>
            match j.room with
            | some room =>
                match room.room_id with
                | some rid =>
                    if rid ≠ "" then
                      (mkRoomInfo room_id
                        (room.room_name.getD ("未知房间_" ++ room_id))
                        (if room.show_status = some 1 then "1" else "2")
                        (room.owner_name.getD "未知主播"), [call])
                    else (fallback, [call])
                | none => (fallback, [call])
            | none => (fallback, [call])
        | none => (fallback, [call])
      else (fallback, [call])

/-- The scraping block of `get_room_info_backup` over a 200 mobile page:
initialise the names to the literal placeholders, take any live marker,
extract `nickname` / `roomName` (falling back to `room_name`), then if
either name is still the placeholder split the `<title>` text on `-`
(`parts[0].strip()` for the room, `parts[1].strip()` minus the site name
for the owner), and finally force not-live when the page carries a
room-not-found marker. -/
def scrapeMobile (room_id : String) (page : PageContent) : Dict :=
  let room_name := "未知房间"
  let owner_name := "未知主播"
  let is_live := page.isLiveMarker
  let owner_name := (page.nickname).getD owner_name
  let room_name :=
    match page.roomName with
    | some n => n
    | none => (page.altRoomName).getD room_name
  let names :=
    if owner_name = "未知主播" ∨ room_name = "未知房间" then
      match page.title with
      | some t =>
          if strContains t "-" then
            let parts := pySplitDash t
            if 2 ≤ parts.length then
              ((if room_name = "未知房间" then pyStrip ((parts.get? 0).getD "")
                else room_name),
               (if owner_name = "未知主播" then
                  pyStrip (pyReplace (pyStrip ((parts.get? 1).getD "")) "斗鱼" "")
                else owner_name))
            else (room_name, owner_name)
          else (room_name, owner_name)
      | none => (room_name, owner_name)
    else (room_name, owner_name)
  let is_live := if page.roomNotFound then false else is_live
  mkRoomInfo room_id names.1 (if is_live then "1" else "2") names.2

/-- `DouyuMonitor.get_room_info_backup`: GET the mobile page with
`timeout=10`; if it raised, go to the PC API. If the final URL differs
from the requested one and contains `"topic"`, report not-live with the
cached name (via `dict.get` with a placeholder default). On a 200
response scrape the page; on any other status go to the PC API. -/
def get_room_info_backup (room_names : Dict) (room_id : String)
    (w : RoomWorld) : Dict × List HttpCall :=
  let call : HttpCall := ⟨mobileUrl room_id, some 10⟩
  match w.mobile with
  | none =>
      let r := tryPcApi room_names room_id w
      (r.1, call :: r.2)
  | some resp =>
      if resp.final_url ≠ mobileUrl room_id ∧ strContains resp.final_url "topic" then
        (mkRoomInfo room_id
          (room_names.getD room_id ("未知房间_" ++ room_id)) "2"
          (room_names.getD room_id ("未知主播_" ++ room_id)), [call])
      else if resp.status_code = 200 then
        (scrapeMobile room_id resp.page, [call])
      else
        let r := tryPcApi room_names room_id w
        (r.1, call :: r.2)

/-- `DouyuMonitor.get_room_info`: GET the primary API (issued with NO
`timeout=` argument); if the call raised or the JSON's `error` field is
not `0`, fall through to `get_room_info_backup`; on `error == 0` return
`data.get('data', {})` verbatim. -/
def get_room_info (room_names : Dict) (room_id : String) (w : RoomWorld) :
    Dict × List HttpCall :=
  let call : HttpCall := ⟨primaryUrl room_id, none⟩
  match w.primary with
  | none =>
      let r := get_room_info_backup room_names room_id w
      (r.1, call :: r.2)
  | some j =>
      if j.error = some 0 then
        (j.data.getD Dict.nil, [call])
      else
        let r := get_room_info_backup room_names room_id w
        (r.1, call :: r.2)

/-- The primary API answered with the explicit success marker
(`data.get('error') == 0`). -/
def primarySuccess (w : RoomWorld) : Bool :=
  match w.primary with
  | some j => j.error = some 0
  | none => false

/-- `DouyuMonitor.check_room_status`: resolve the room, read the live
flag (`room_status == '1'`), and when `room_info.get('room_name')` is
truthy (present and non-empty) write it into the name cache. Returns
`(is_live, room_info, updated cache)`. -/
def check_room_status (room_names : Dict) (room_id : String)
    (w : RoomWorld) : Bool × Dict × Dict :=
  let room_info := (get_room_info room_names room_id w).1
  let is_live := room_info.get? "room_status" = some "1"
  let room_names' :=
    match room_info.get? "room_name" with
    | some n => if n ≠ "" then room_names.insert room_id n else room_names
    | none => room_names
  (is_live, room_info, room_names')

/-- A dispatched notification: the local OS notification attempt
(`notification.notify(title, message, ...)`) or the push-relay POST
issued by `send_server_chan` (`title` and the `desp` field actually
posted). -/
inductive NotifyEvent where
  | localNotify (title message : String)
  | serverChan (title desp : String)
deriving DecidableEq

/-- Whether an event is a push-relay attempt. -/
def NotifyEvent.isServerChan : NotifyEvent → Bool
  | .serverChan _ _ => true
  | _ => false

/-- `DouyuMonitor.send_server_chan`: POST to the relay with the message's
newlines doubled for the relay's Markdown dialect; every outcome of the
POST is swallowed by the surrounding `try`. -/
def send_server_chan (title message : String) : List NotifyEvent :=
  [NotifyEvent.serverChan title (pyReplace message "\n" "\n\n")]

/-- Python truthiness of `self.server_chan_key`: set and non-empty. -/
def keySet : Option String → Bool
  | some k => k ≠ ""
  | none => false

/-- `DouyuMonitor.notify`: one `try` block first calls
`notification.notify`, then — only if that call returned — checks
`self.server_chan_key` and calls `send_server_chan`. When the local
sink raises, the `except` catches it and the relay push is never
reached. Returns the dispatch attempts in order. -/
def notify (server_chan_key : Option String) (localNotifyRaises : Bool)
    (title message : String) : List NotifyEvent :=
  if localNotifyRaises then
    [NotifyEvent.localNotify title message]
  else
    NotifyEvent.localNotify title message ::
      (if keySet server_chan_key then send_server_chan title message else [])

/-- The mutable monitor state the polling loop touches per room:
`self.room_status` (prior live flags), `self.new_live_rooms` (the
pending-live selection list of `(room_id, room_info)` pairs) and
`self.room_names` (the name cache). -/
structure MonitorState where
  room_status : List (String × Bool)
  new_live_rooms : List (String × Dict)
  room_names : Dict
deriving DecidableEq

/-- Lookup in `self.room_status`; `none` models the `KeyError` that
`self.room_status[room_id]` raises for an untracked room. -/
def lookupStatus (m : List (String × Bool)) (room_id : String) : Option Bool :=
  (m.find? (fun p => p.1 == room_id)).map (fun p => p.2)

/-- `self.room_status[room_id] = is_live`. -/
def setStatus (m : List (String × Bool)) (room_id : String) (b : Bool) :
    List (String × Bool) :=
  (room_id, b) :: (List.filter (fun p => p.1 != room_id) m)

/-- The per-room body of `DouyuMonitor.run`, including its `try`/`except`:
resolve via `check_room_status` (which already updated the name cache),
read the display names with their `f'房间{room_id}'` defaults, then
compare against `self.room_status[room_id]`. An untracked room raises
`KeyError` there — caught by the per-room `except`, so the cache update
persists but no status change and no notification happen. On a change
the stored flag is overwritten and the matching notification dispatched;
a room that just went live is appended to `self.new_live_rooms`. -/
def processRoom (server_chan_key : Option String) (st : MonitorState)
    (room_id : String) (w : RoomWorld) : MonitorState × List NotifyEvent :=
  let res := check_room_status st.room_names room_id w
  let is_live := res.1
  let room_info := res.2.1
  let names' := res.2.2
  let room_name := (room_info.get? "room_name").getD ("房间" ++ room_id)
  let owner_name := (room_info.get? "owner_name").getD ("主播" ++ room_id)
  match lookupStatus st.room_status room_id with
  | none => ({ st with room_names := names' }, [])
  | some prev =>
      if is_live ≠ prev then
        let status' := setStatus st.room_status room_id is_live
        if is_live then
          let title := "🔴 " ++ owner_name ++ " 开播啦!"
          let message := "房间: " ++ room_name ++ "\n时间: " ++ w.now
          (⟨status', st.new_live_rooms ++ [(room_id, room_info)], names'⟩,
           notify server_chan_key w.localNotifyRaises title message)
        else
          let title := "⚪ " ++ owner_name ++ " 已下播"
          let message := "房间: " ++ room_name ++ "\n时间: " ++ w.now
          (⟨status', st.new_live_rooms, names'⟩,
           notify server_chan_key w.localNotifyRaises title message)
      else
        ({ st with room_names := names' }, [])

/-- The `for room_id in self.room_ids` loop of one poll cycle: process
each room in order, threading the state and concatenating the dispatched
notifications. -/
def runCycle (server_chan_key : Option String) (ws : String → RoomWorld) :
    List String → MonitorState → MonitorState × List NotifyEvent
  | [], st => (st, [])
  | room_id :: rest, st =>
      let r1 := processRoom server_chan_key st room_id (ws room_id)
      let r2 := runCycle server_chan_key ws rest r1.1
      (r2.1, r1.2 ++ r2.2)

/-- `DouyuMonitor.handle_new_live_rooms`: `choice` is the user's input
(`none` models a `ValueError` from `int(input(...))`). A single pending
room is opened directly when `auto_open` is set; with several pending
rooms a valid 1-based pick opens that room, `0` and any other input
open nothing. In every case the pending list is cleared at the end.
Returns the new state and the room ids opened in a browser. -/
def handle_new_live_rooms (auto_open : Bool) (choice : Option Int)
    (st : MonitorState) : MonitorState × List String :=
  if st.new_live_rooms.isEmpty then (st, [])
  else if st.new_live_rooms.length = 1 then
    let opened :=
      if auto_open then
        match st.new_live_rooms.get? 0 with
        | some p => [p.1]
        | none => []
      else []
    ({ st with new_live_rooms := [] }, opened)
  else
    let opened :=
      match choice with
      | none => []
      | some c =>
          if 1 ≤ c ∧ c ≤ st.new_live_rooms.length then
            match st.new_live_rooms.get? (c - 1).toNat with
            | some p => [p.1]
            | none => []
          else []
    ({ st with new_live_rooms := [] }, opened)

/-! ## Helper lemmas -/

theorem Dict.get?_mkRoomInfo_room_name (i n s o : String) :
    (mkRoomInfo i n s o).get? "room_name" = some n := by
  simp [mkRoomInfo, Dict.get?, List.find?]

theorem Dict.get?_mkRoomInfo_room_status (i n s o : String) :
    (mkRoomInfo i n s o).get? "room_status" = some s := by
  simp [mkRoomInfo, Dict.get?, List.find?]

theorem Dict.get?_mkRoomInfo_owner_name (i n s o : String) :
    (mkRoomInfo i n s o).get? "owner_name" = some o := by
  simp [mkRoomInfo, Dict.get?, List.find?]

theorem Dict.get?_insert_self (d : Dict) (k v : String) :
    (d.insert k v).get? k = some v := by
  simp [Dict.insert, Dict.get?, List.find?]

theorem lookupStatus_setStatus_self (m : List (String × Bool)) (k : String)
    (b : Bool) : lookupStatus (setStatus m k b) k = some b := by
  simp [setStatus, lookupStatus, List.find?]

theorem find?_filter_key_ne {α : Type} (m : List (String × α)) (k k' : String)
    (h : k' ≠ k) :
    List.find? (fun p => p.1 == k') (List.filter (fun p => p.1 != k) m) =
    List.find? (fun p => p.1 == k') m := by
  have hkk' : (k == k') = false := by
    simp only [beq_eq_false_iff_ne]
    exact fun he => h he.symm
  induction m with
  | nil => rfl
  | cons p rest ih =>
      by_cases hk : p.1 = k
      · simp [List.filter_cons, hk, List.find?_cons, hkk', ih]
      · by_cases hk2 : p.1 = k'
        · simp [List.filter_cons, hk, List.find?_cons, hk2, h]
        · simp [List.filter_cons, hk, List.find?_cons, hk2, ih]

theorem lookupStatus_setStatus_ne (m : List (String × Bool)) (k k' : String)
    (b : Bool) (h : k' ≠ k) :
    lookupStatus (setStatus m k b) k' = lookupStatus m k' := by
  have hbeq : (k == k') = false := by
    simp only [beq_eq_false_iff_ne]
    exact fun he => h he.symm
  simp [setStatus, lookupStatus, List.find?_cons, hbeq,
    find?_filter_key_ne m k k' h]

theorem Dict.get?_insert_ne (d : Dict) (k k' v : String) (h : k' ≠ k) :
    (d.insert k v).get? k' = d.get? k' := by
  have hbeq : (k == k') = false := by
    simp only [beq_eq_false_iff_ne]
    exact fun he => h he.symm
  simp [Dict.insert, Dict.get?, List.find?_cons, hbeq,
    find?_filter_key_ne d k k' h]

theorem String.append_ne_empty_of_left_ne_empty (s t : String)
    (h : s ≠ "") : s ++ t ≠ "" := by
  intro he
  apply h
  have hd : s.data ++ t.data = [] := by
    have := congrArg String.data he
    simpa [String.data_append] using this
  have : s.data = [] := (List.append_eq_nil.mp hd).1
  cases s
  simp_all [String.ext_iff]

/-! ## Claim C1 -/

/-- C1 counterexample: with a configured (truthy) push-relay key and a
local notification sink that raises, `notify` dispatches only the local
attempt and never attempts `send_server_chan` — the relay push is
skipped, contradicting the claimed channel independence. The single
`try` block in `notify` reaches `send_server_chan` only after
`notification.notify` returned normally. -/
theorem claim1_relay_skipped_on_local_failure :
    keySet (some "SCT0KEY") = true ∧
    notify (some "SCT0KEY") true "t" "m" = [NotifyEvent.localNotify "t" "m"] ∧
    (notify (some "SCT0KEY") true "t" "m").any NotifyEvent.isServerChan = false := by
  decide

/-- C1 amended: `notify` attempts the push relay exactly when the key is
configured (set and non-empty) AND the local OS notification did not
raise; a local-sink failure skips the relay push. -/
theorem claim1_relay_iff_key_and_local_ok (key : Option String)
    (localNotifyRaises : Bool) (title message : String) :
    (notify key localNotifyRaises title message).any NotifyEvent.isServerChan
      = (!localNotifyRaises && keySet key) := by
  cases localNotifyRaises with
  | true => simp [notify, NotifyEvent.isServerChan]
  | false =>
      cases hk : keySet key with
      | true =>
          simp [notify, hk, send_server_chan, NotifyEvent.isServerChan]
      | false =>
          simp [notify, hk, NotifyEvent.isServerChan]

/-! ## Claim C2 -/

/-- Every branch of `scrapeMobile` returns a four-field room info. -/
theorem scrapeMobile_eq_mkRoomInfo (rid : String) (page : PageContent) :
    ∃ n s o, scrapeMobile rid page = mkRoomInfo rid n s o :=
  ⟨_, _, _, rfl⟩

/-- Both branches of `pcFallback` build a four-field room info. -/
theorem pcFallback_eq_mkRoomInfo (names : Dict) (rid : String) :
    ∃ n s o, pcFallback names rid = mkRoomInfo rid n s o := by
  unfold pcFallback
  cases names.get? rid with
  | none => exact ⟨_, _, _, rfl⟩
  | some n =>
      dsimp only
      by_cases h : n = ""
      · rw [if_neg (not_not_intro h)]
        exact ⟨_, _, _, rfl⟩
      · rw [if_pos h]
        exact ⟨_, _, _, rfl⟩

/-- Every branch of `tryPcApi` returns a four-field room info. -/
theorem tryPcApi_eq_mkRoomInfo (names : Dict) (rid : String) (w : RoomWorld) :
    ∃ n s o, (tryPcApi names rid w).1 = mkRoomInfo rid n s o := by
  unfold tryPcApi
  cases w.pc with
  | none => exact pcFallback_eq_mkRoomInfo names rid
  | some resp =>
      dsimp only
      by_cases hs : resp.status_code = 200
      · rw [if_pos hs]
        cases resp.json with
        | none => exact pcFallback_eq_mkRoomInfo names rid
        | some j =>
            dsimp only
            cases j.room with
            | none => exact pcFallback_eq_mkRoomInfo names rid
            | some room =>
                dsimp only
                cases room.room_id with
                | none => exact pcFallback_eq_mkRoomInfo names rid
                | some r =>
                    dsimp only
                    by_cases hr : r = ""
                    · rw [if_neg (not_not_intro hr)]
                      exact pcFallback_eq_mkRoomInfo names rid
                    · rw [if_pos hr]
                      exact ⟨_, _, _, rfl⟩
      · rw [if_neg hs]
        exact pcFallback_eq_mkRoomInfo names rid

/-- Every branch of `get_room_info_backup` returns a four-field room
info. -/
theorem backup_eq_mkRoomInfo (names : Dict) (rid : String) (w : RoomWorld) :
    ∃ n s o, (get_room_info_backup names rid w).1 = mkRoomInfo rid n s o := by
  unfold get_room_info_backup
  cases w.mobile with
  | none =>
      obtain ⟨n, s, o, hpc⟩ := tryPcApi_eq_mkRoomInfo names rid w
      refine ⟨n, s, o, ?_⟩
      cases htp : tryPcApi names rid w with
      | mk d calls =>
          rw [htp] at hpc
          simpa using hpc
  | some resp =>
      dsimp only
      by_cases ht : resp.final_url ≠ mobileUrl rid ∧
          strContains resp.final_url "topic" = true
      · rw [if_pos ht]
        exact ⟨_, _, _, rfl⟩
      · rw [if_neg ht]
        by_cases hs : resp.status_code = 200
        · rw [if_pos hs]
          exact scrapeMobile_eq_mkRoomInfo rid resp.page
        · rw [if_neg hs]
          obtain ⟨n, s, o, hpc⟩ := tryPcApi_eq_mkRoomInfo names rid w
          refine ⟨n, s, o, ?_⟩
          cases htp : tryPcApi names rid w with
          | mk d calls =>
              rw [htp] at hpc
              simpa using hpc

/-- When the primary API does not report success, `get_room_info`
returns the backup resolver's room info. -/
theorem get_room_info_of_not_primarySuccess (names : Dict) (rid : String)
    (w : RoomWorld) (h : primarySuccess w = false) :
    (get_room_info names rid w).1 = (get_room_info_backup names rid w).1 := by
  unfold get_room_info
  cases hw : w.primary with
  | none => simp
  | some j =>
      have hj : ¬ j.error = some 0 := by
        unfold primarySuccess at h
        rw [hw] at h
        simpa using h
      simp [hj]

/-- C2 counterexample: a primary-API response that parses as JSON with
the success marker but no `data` payload (`{"error": 0}`) makes
`get_room_info` return the empty dict: `room_name` and `owner_name` are
absent, refuting "always returns a room-info mapping whose `room_name`
and `owner_name` fields are present and non-empty". -/
theorem claim2_primary_success_may_lack_names :
    ((get_room_info Dict.nil "123"
        ⟨some ⟨some 0, none⟩, none, none, false, ""⟩).1).get? "room_name" = none ∧
    ((get_room_info Dict.nil "123"
        ⟨some ⟨some 0, none⟩, none, none, false, ""⟩).1).get? "owner_name" = none := by
  decide

/-- C2 amended: `get_room_info` is total (never raises) and, whenever
the primary API does not yield a success-marked response, the returned
mapping always carries `room_name` and `owner_name` fields; when
moreover every network source raises (mobile fetch and PC API), both
names are non-empty — the cached name when one is cached and non-empty,
otherwise placeholders derived from the room id. A success-marked
primary response is returned verbatim and may lack those fields. -/
theorem claim2_fallback_names_present (names : Dict) (rid : String)
    (w : RoomWorld) (h : primarySuccess w = false) :
    (∃ rn, ((get_room_info names rid w).1).get? "room_name" = some rn) ∧
    (∃ ow, ((get_room_info names rid w).1).get? "owner_name" = some ow) ∧
    (w.mobile = none → w.pc = none →
      ((get_room_info names rid w).1).get? "room_name" ≠ some "" ∧
      ((get_room_info names rid w).1).get? "owner_name" ≠ some "") := by
  rw [get_room_info_of_not_primarySuccess names rid w h]
  obtain ⟨n, s, o, hb⟩ := backup_eq_mkRoomInfo names rid w
  refine ⟨⟨n, by rw [hb]; exact Dict.get?_mkRoomInfo_room_name ..⟩,
          ⟨o, by rw [hb]; exact Dict.get?_mkRoomInfo_owner_name ..⟩, ?_⟩
  intro hm hpc
  have hfall : (get_room_info_backup names rid w).1 = pcFallback names rid := by
    unfold get_room_info_backup tryPcApi
    rw [hm, hpc]
  have hroom : "未知房间_" ++ rid ≠ "" :=
    String.append_ne_empty_of_left_ne_empty _ _ (by decide)
  have howner : "未知主播_" ++ rid ≠ "" :=
    String.append_ne_empty_of_left_ne_empty _ _ (by decide)
  rw [hfall]
  unfold pcFallback
  cases hn : names.get? rid with
  | none =>
      simp only [hn]
      constructor
      · rw [Dict.get?_mkRoomInfo_room_name]
        simpa using hroom
      · rw [Dict.get?_mkRoomInfo_owner_name]
        simpa using howner
  | some n =>
      by_cases hne : n = ""
      · simp only [hn, hne, ne_eq, not_true_eq_false, if_false]
        constructor
        · rw [Dict.get?_mkRoomInfo_room_name]
          simpa using hroom
        · rw [Dict.get?_mkRoomInfo_owner_name]
          simpa using howner
      · simp only [hn, hne, ne_eq, not_false_eq_true, if_true]
        constructor
        · rw [Dict.get?_mkRoomInfo_room_name]
          simpa using hne
        · rw [Dict.get?_mkRoomInfo_owner_name]
          simpa using hne

/-- C2 amended, witness: a world where every source raises, at room
`"7"` with an empty cache. -/
theorem claim2_fallback_names_present_witness :
    primarySuccess ⟨none, none, none, false, ""⟩ = false ∧
    ((∃ rn, ((get_room_info Dict.nil "7"
        ⟨none, none, none, false, ""⟩).1).get? "room_name" = some rn) ∧
     (∃ ow, ((get_room_info Dict.nil "7"
        ⟨none, none, none, false, ""⟩).1).get? "owner_name" = some ow) ∧
     ((⟨none, none, none, false, ""⟩ : RoomWorld).mobile = none →
      (⟨none, none, none, false, ""⟩ : RoomWorld).pc = none →
      ((get_room_info Dict.nil "7"
          ⟨none, none, none, false, ""⟩).1).get? "room_name" ≠ some "" ∧
      ((get_room_info Dict.nil "7"
          ⟨none, none, none, false, ""⟩).1).get? "owner_name" ≠ some "")) :=
  ⟨by decide, claim2_fallback_names_present Dict.nil "7" _ (by decide)⟩

/-! ## Claims C3, C4, C5 -/

/-- When the mobile fetch and the PC API both raise, the backup resolver
ends in `pcFallback`. -/
theorem backup_all_raise (names : Dict) (rid : String) (w : RoomWorld)
    (hm : w.mobile = none) (hpc : w.pc = none) :
    (get_room_info_backup names rid w).1 = pcFallback names rid := by
  unfold get_room_info_backup tryPcApi
  rw [hm, hpc]

/-- When the mobile fetch lands on a redirected URL containing
`"topic"`, the backup resolver returns the cached-name/not-live info. -/
theorem backup_topic_redirect (names : Dict) (rid : String) (w : RoomWorld)
    (m : MobileResp) (hm : w.mobile = some m)
    (hurl : m.final_url ≠ mobileUrl rid)
    (ht : strContains m.final_url "topic" = true) :
    (get_room_info_backup names rid w).1
      = mkRoomInfo rid (names.getD rid ("未知房间_" ++ rid)) "2"
          (names.getD rid ("未知主播_" ++ rid)) := by
  unfold get_room_info_backup
  rw [hm]
  dsimp only
  rw [if_pos ⟨hurl, ht⟩]

/-- C3 counterexample: the cache holds the real name `"Alice"` for room
`"7"`; the primary API raises and the mobile page answers 200 with no
extractable name, so the scrape yields the literal placeholder
`"未知房间"`, which is truthy — `check_room_status` overwrites the real
cached name with the placeholder, refuting the claimed monotonicity. -/
theorem claim3_placeholder_overwrites_real_name :
    Dict.get? [("7", "Alice")] "7" = some "Alice" ∧
    ((check_room_status [("7", "Alice")] "7"
        ⟨none, some ⟨mobileUrl "7", 200, ⟨true, none, none, none, none, false⟩⟩,
         none, false, ""⟩).2.2).get? "7" = some "未知房间" := by
  decide

/-- C3 amended: `check_room_status` overwrites the cached name with any
non-empty resolved `room_name`, including the literal placeholder
`"未知房间"` produced by the mobile scrape; a real (non-empty) cached
name is guaranteed to survive only the resolutions that serve the name
from the cache itself — the topic-redirect branch and the
all-sources-failed fallback. -/
theorem claim3_cache_preserved_on_cache_fallback (names : Dict)
    (rid n : String) (w : RoomWorld) (hn : names.get? rid = some n)
    (hne : n ≠ "") (hp : primarySuccess w = false)
    (hsrc : (w.mobile = none ∧ w.pc = none) ∨
            (∃ m, w.mobile = some m ∧ m.final_url ≠ mobileUrl rid ∧
                  strContains m.final_url "topic" = true)) :
    ((check_room_status names rid w).2.2).get? rid = some n := by
  unfold check_room_status
  dsimp only
  have hinfo : (get_room_info names rid w).1 = mkRoomInfo rid n "2" n := by
    rw [get_room_info_of_not_primarySuccess names rid w hp]
    rcases hsrc with ⟨hm, hpc⟩ | ⟨m, hm, hurl, ht⟩
    · rw [backup_all_raise names rid w hm hpc]
      unfold pcFallback
      rw [hn]
      dsimp only
      rw [if_pos hne]
    · rw [backup_topic_redirect names rid w m hm hurl ht]
      have hg1 : names.getD rid ("未知房间_" ++ rid) = n := by
        unfold Dict.getD
        rw [hn]
        rfl
      have hg2 : names.getD rid ("未知主播_" ++ rid) = n := by
        unfold Dict.getD
        rw [hn]
        rfl
      rw [hg1, hg2]
  rw [hinfo, Dict.get?_mkRoomInfo_room_name]
  dsimp only
  rw [if_pos hne]
  exact Dict.get?_insert_self names rid n

/-- C3 amended, witness: the all-sources-raise world at room `"7"` with
cache entry `"Alice"`. -/
theorem claim3_cache_preserved_witness :
    Dict.get? [("7", "Alice")] "7" = some "Alice" ∧ "Alice" ≠ "" ∧
    primarySuccess ⟨none, none, none, false, ""⟩ = false ∧
    ((check_room_status [("7", "Alice")] "7"
        ⟨none, none, none, false, ""⟩).2.2).get? "7" = some "Alice" :=
  ⟨by decide, by decide, by decide,
   claim3_cache_preserved_on_cache_fallback [("7", "Alice")] "7" "Alice"
     ⟨none, none, none, false, ""⟩ (by decide) (by decide) (by decide)
     (Or.inl ⟨rfl, rfl⟩)⟩

/-- C4 confirmed: on a primary-API response parsing as JSON with the
explicit success marker (`error == 0`), `get_room_info` returns exactly
the `data` payload of that response, and the only HTTP call issued is
the primary GET — no mobile-page scrape, no PC API; the result is the
same for every name cache (no cache read), as the statement holds for
all `names`. -/
theorem claim4_primary_success_exact (names : Dict) (rid : String)
    (w : RoomWorld) (j : PrimaryJson) (hw : w.primary = some j)
    (he : j.error = some 0) :
    get_room_info names rid w
      = (j.data.getD Dict.nil, [⟨primaryUrl rid, none⟩]) := by
  unfold get_room_info
  rw [hw]
  dsimp only
  rw [if_pos he]

/-- C4 witness: a concrete success-marked primary response. -/
theorem claim4_primary_success_exact_witness :
    (⟨some ⟨some 0, some [("room_name", "N"), ("owner_name", "O"),
        ("room_status", "1")]⟩, none, none, false, ""⟩ : RoomWorld).primary
      = some ⟨some 0, some [("room_name", "N"), ("owner_name", "O"),
          ("room_status", "1")]⟩ ∧
    (⟨some 0, some [("room_name", "N"), ("owner_name", "O"),
        ("room_status", "1")]⟩ : PrimaryJson).error = some 0 ∧
    get_room_info Dict.nil "7"
        ⟨some ⟨some 0, some [("room_name", "N"), ("owner_name", "O"),
            ("room_status", "1")]⟩, none, none, false, ""⟩
      = ([("room_name", "N"), ("owner_name", "O"), ("room_status", "1")],
         [⟨primaryUrl "7", none⟩]) :=
  ⟨rfl, rfl,
   claim4_primary_success_exact Dict.nil "7"
     ⟨some ⟨some 0, some [("room_name", "N"), ("owner_name", "O"),
         ("room_status", "1")]⟩, none, none, false, ""⟩
     ⟨some 0, some [("room_name", "N"), ("owner_name", "O"),
         ("room_status", "1")]⟩ rfl rfl⟩

/-- C5 confirmed: when the primary API fails and the mobile fetch ends
on a final URL different from the requested one containing the
campaign/topic marker, the resolver reports not-live (`room_status`
`'2'`) and, when a name is cached for the room, that cached name as both
`room_name` and `owner_name`. -/
theorem claim5_topic_redirect_cached_offline (names : Dict) (rid : String)
    (w : RoomWorld) (m : MobileResp) (hp : primarySuccess w = false)
    (hm : w.mobile = some m) (hurl : m.final_url ≠ mobileUrl rid)
    (ht : strContains m.final_url "topic" = true) :
    ((get_room_info names rid w).1).get? "room_status" = some "2" ∧
    (∀ n, names.get? rid = some n →
      ((get_room_info names rid w).1).get? "room_name" = some n ∧
      ((get_room_info names rid w).1).get? "owner_name" = some n) := by
  have h1 := get_room_info_of_not_primarySuccess names rid w hp
  rw [h1, backup_topic_redirect names rid w m hm hurl ht]
  refine ⟨Dict.get?_mkRoomInfo_room_status .., ?_⟩
  intro n hn
  have hg1 : names.getD rid ("未知房间_" ++ rid) = n := by
    unfold Dict.getD
    rw [hn]
    rfl
  have hg2 : names.getD rid ("未知主播_" ++ rid) = n := by
    unfold Dict.getD
    rw [hn]
    rfl
  rw [hg1, hg2]
  exact ⟨Dict.get?_mkRoomInfo_room_name .., Dict.get?_mkRoomInfo_owner_name ..⟩

/-- C5 witness: primary raises, mobile redirected to a topic URL, cache
holds `"Alice"` for room `"7"`. -/
theorem claim5_topic_redirect_cached_offline_witness :
    primarySuccess ⟨none, some ⟨"https://www.douyu.com/topic/x", 200,
        ⟨false, none, none, none, none, false⟩⟩, none, false, ""⟩ = false ∧
    "https://www.douyu.com/topic/x" ≠ mobileUrl "7" ∧
    strContains "https://www.douyu.com/topic/x" "topic" = true ∧
    (((get_room_info [("7", "Alice")] "7"
        ⟨none, some ⟨"https://www.douyu.com/topic/x", 200,
          ⟨false, none, none, none, none, false⟩⟩, none, false, ""⟩).1).get?
        "room_status" = some "2" ∧
     (∀ n, Dict.get? [("7", "Alice")] "7" = some n →
       ((get_room_info [("7", "Alice")] "7"
          ⟨none, some ⟨"https://www.douyu.com/topic/x", 200,
            ⟨false, none, none, none, none, false⟩⟩, none, false, ""⟩).1).get?
          "room_name" = some n ∧
       ((get_room_info [("7", "Alice")] "7"
          ⟨none, some ⟨"https://www.douyu.com/topic/x", 200,
            ⟨false, none, none, none, none, false⟩⟩, none, false, ""⟩).1).get?
          "owner_name" = some n)) :=
  ⟨by decide, by decide, by decide,
   claim5_topic_redirect_cached_offline [("7", "Alice")] "7" _ _
     (by decide) rfl (by decide) (by decide)⟩

/-! ## Poll-loop lemmas -/

/-- On a success-marked primary response, `get_room_info` returns the
`data` payload with only the primary HTTP call. -/
theorem get_room_info_primary (names : Dict) (rid : String) (w : RoomWorld)
    (j : PrimaryJson) (hw : w.primary = some j) (he : j.error = some 0) :
    get_room_info names rid w
      = (j.data.getD Dict.nil, [⟨primaryUrl rid, none⟩]) := by
  unfold get_room_info
  rw [hw]
  dsimp only
  rw [if_pos he]

/-- The live flag computed by `check_room_status`. -/
theorem check_room_status_fst (names : Dict) (rid : String) (w : RoomWorld) :
    (check_room_status names rid w).1
      = decide (Dict.get? ((get_room_info names rid w).1) "room_status"
          = some "1") := rfl

/-- The room info returned by `check_room_status`. -/
theorem check_room_status_info (names : Dict) (rid : String) (w : RoomWorld) :
    (check_room_status names rid w).2.1 = (get_room_info names rid w).1 := rfl

/-- A newly-live room: prior stored flag `false`, resolution live. The
loop body overwrites the flag, dispatches the started-streaming
notification and appends the room to the pending list. -/
theorem processRoom_newly_live (key : Option String) (st : MonitorState)
    (rid : String) (w : RoomWorld)
    (hst : lookupStatus st.room_status rid = some false)
    (hlive : (check_room_status st.room_names rid w).1 = true) :
    processRoom key st rid w
      = (⟨setStatus st.room_status rid true,
          st.new_live_rooms ++ [(rid, (check_room_status st.room_names rid w).2.1)],
          (check_room_status st.room_names rid w).2.2⟩,
         notify key w.localNotifyRaises
           ("🔴 " ++ (Dict.getD ((check_room_status st.room_names rid w).2.1)
              "owner_name" ("主播" ++ rid)) ++ " 开播啦!")
           ("房间: " ++ (Dict.getD ((check_room_status st.room_names rid w).2.1)
              "room_name" ("房间" ++ rid)) ++ "\n时间: " ++ w.now)) := by
  unfold processRoom
  dsimp only
  rw [hst, hlive]
  dsimp only
  rw [if_pos (by decide : (true : Bool) ≠ false)]
  rw [if_pos rfl]
  rfl

/-- A newly-offline room: prior stored flag `true`, resolution
not-live. The loop body overwrites the flag and dispatches the
stopped-streaming notification; the pending list is untouched. -/
theorem processRoom_newly_offline (key : Option String) (st : MonitorState)
    (rid : String) (w : RoomWorld)
    (hst : lookupStatus st.room_status rid = some true)
    (hlive : (check_room_status st.room_names rid w).1 = false) :
    processRoom key st rid w
      = (⟨setStatus st.room_status rid false, st.new_live_rooms,
          (check_room_status st.room_names rid w).2.2⟩,
         notify key w.localNotifyRaises
           ("⚪ " ++ (Dict.getD ((check_room_status st.room_names rid w).2.1)
              "owner_name" ("主播" ++ rid)) ++ " 已下播")
           ("房间: " ++ (Dict.getD ((check_room_status st.room_names rid w).2.1)
              "room_name" ("房间" ++ rid)) ++ "\n时间: " ++ w.now)) := by
  unfold processRoom
  dsimp only
  rw [hst, hlive]
  dsimp only
  rw [if_pos (by decide : (false : Bool) ≠ true)]
  rfl

/-- An unchanged room: resolution matches the stored flag; only the
name cache is updated, no notification, no status write. -/
theorem processRoom_unchanged (key : Option String) (st : MonitorState)
    (rid : String) (w : RoomWorld) (prev : Bool)
    (hst : lookupStatus st.room_status rid = some prev)
    (heq : (check_room_status st.room_names rid w).1 = prev) :
    processRoom key st rid w
      = ({ st with room_names := (check_room_status st.room_names rid w).2.2 },
         []) := by
  unfold processRoom
  dsimp only
  rw [hst, heq]
  dsimp only
  rw [if_neg (by simp : ¬ prev ≠ prev)]

/-- A room missing from `self.room_status`: the lookup raises
`KeyError`, which the per-room `except` catches after the cache update
already happened; no notification, no status write. -/
theorem processRoom_keyerror (key : Option String) (st : MonitorState)
    (rid : String) (w : RoomWorld)
    (hst : lookupStatus st.room_status rid = none) :
    processRoom key st rid w
      = ({ st with room_names := (check_room_status st.room_names rid w).2.2 },
         []) := by
  unfold processRoom
  dsimp only
  rw [hst]

/-- The local notification attempt is always dispatched by `notify`. -/
theorem notify_local_mem (key : Option String) (raises : Bool)
    (t m : String) : NotifyEvent.localNotify t m ∈ notify key raises t m := by
  unfold notify
  cases raises with
  | true => simp
  | false => simp

/-- `handle_new_live_rooms` leaves an empty pending list for every
selection outcome. -/
theorem handle_new_live_rooms_clears (auto_open : Bool)
    (choice : Option Int) (st : MonitorState) :
    (handle_new_live_rooms auto_open choice st).1.new_live_rooms = [] := by
  unfold handle_new_live_rooms
  by_cases h0 : st.new_live_rooms.isEmpty
  · rw [if_pos h0]
    exact List.isEmpty_iff.mp h0
  · rw [if_neg h0]
    by_cases h1 : st.new_live_rooms.length = 1
    · rw [if_pos h1]
    · rw [if_neg h1]

/-- The live flag of `check_room_status` under a success-marked,
live-flagged primary response. -/
theorem check_room_status_fst_primary_live (names : Dict) (rid : String)
    (w : RoomWorld) (j : PrimaryJson) (hw : w.primary = some j)
    (he : j.error = some 0)
    (hl : Dict.get? (j.data.getD Dict.nil) "room_status" = some "1") :
    (check_room_status names rid w).1 = true := by
  rw [check_room_status_fst, get_room_info_primary names rid w j hw he]
  dsimp only
  rw [hl]
  decide

/-- The single HTTP call issued by `_try_pc_api`, in every branch:
the PC-API GET with `timeout=10`. -/
theorem tryPcApi_calls (names : Dict) (rid : String) (w : RoomWorld) :
    (tryPcApi names rid w).2 = [⟨pcUrl rid, some 10⟩] := by
  unfold tryPcApi
  cases w.pc with
  | none => rfl
  | some resp =>
      dsimp only
      by_cases hs : resp.status_code = 200
      · rw [if_pos hs]
        cases resp.json with
        | none => rfl
        | some j =>
            dsimp only
            cases j.room with
            | none => rfl
            | some room =>
                dsimp only
                cases room.room_id with
                | none => rfl
                | some r =>
                    dsimp only
                    by_cases hr : r = ""
                    · rw [if_neg (not_not_intro hr)]
                    · rw [if_pos hr]
      · rw [if_neg hs]

/-- The HTTP calls issued by `get_room_info_backup`: the mobile GET with
`timeout=10`, optionally followed by the PC-API GET with `timeout=10`. -/
theorem backup_calls (names : Dict) (rid : String) (w : RoomWorld) :
    (get_room_info_backup names rid w).2 = [⟨mobileUrl rid, some 10⟩] ∨
    (get_room_info_backup names rid w).2
      = [⟨mobileUrl rid, some 10⟩, ⟨pcUrl rid, some 10⟩] := by
  unfold get_room_info_backup
  cases w.mobile with
  | none =>
      right
      dsimp only
      rw [tryPcApi_calls]
  | some resp =>
      dsimp only
      by_cases ht : resp.final_url ≠ mobileUrl rid ∧
          strContains resp.final_url "topic" = true
      · rw [if_pos ht]
        left
        rfl
      · rw [if_neg ht]
        by_cases hs : resp.status_code = 200
        · rw [if_pos hs]
          left
          rfl
        · rw [if_neg hs]
          right
          dsimp only
          rw [tryPcApi_calls]

/-- The HTTP calls issued by `get_room_info`: the primary GET with no
timeout, optionally followed by the backup calls. -/
theorem get_room_info_calls (names : Dict) (rid : String) (w : RoomWorld) :
    (get_room_info names rid w).2 = [⟨primaryUrl rid, none⟩] ∨
    (get_room_info names rid w).2
      = ⟨primaryUrl rid, none⟩ :: (get_room_info_backup names rid w).2 := by
  unfold get_room_info
  cases w.primary with
  | none =>
      right
      rfl
  | some j =>
      dsimp only
      by_cases he : j.error = some 0
      · rw [if_pos he]
        left
        rfl
      · rw [if_neg he]
        right
        rfl

/-- The `room_status` field of `pcFallback` is always `'2'`. -/
theorem pcFallback_room_status (names : Dict) (rid : String) :
    Dict.get? (pcFallback names rid) "room_status" = some "2" := by
  unfold pcFallback
  cases names.get? rid with
  | none => exact Dict.get?_mkRoomInfo_room_status ..
  | some n =>
      dsimp only
      by_cases h : n = ""
      · rw [if_neg (not_not_intro h)]
        exact Dict.get?_mkRoomInfo_room_status ..
      · rw [if_pos h]
        exact Dict.get?_mkRoomInfo_room_status ..

/-! ## Claim C6 -/

/-- C6 confirmed: starting from stored status `false`, a poll-cycle
update that resolves live classifies the room as newly-live — the
started-streaming notification is dispatched, the room is appended to
the pending list, and the stored status becomes `true`; an immediately
following live update is classified unchanged — no notification, stored
status stays `true`. Liveness of the two resolutions is supplied by
success-marked primary responses whose payload carries
`room_status = '1'`. -/
theorem claim6_newly_live_then_unchanged (key : Option String)
    (st : MonitorState) (rid : String) (w w' : RoomWorld)
    (hst : lookupStatus st.room_status rid = some false)
    (j j' : PrimaryJson)
    (hw : w.primary = some j) (he : j.error = some 0)
    (hl : Dict.get? (j.data.getD Dict.nil) "room_status" = some "1")
    (hw' : w'.primary = some j') (he' : j'.error = some 0)
    (hl' : Dict.get? (j'.data.getD Dict.nil) "room_status" = some "1") :
    lookupStatus (processRoom key st rid w).1.room_status rid = some true ∧
    (processRoom key st rid w).1.new_live_rooms
      = st.new_live_rooms ++ [(rid, j.data.getD Dict.nil)] ∧
    (∃ msg, NotifyEvent.localNotify
        ("🔴 " ++ Dict.getD (j.data.getD Dict.nil) "owner_name" ("主播" ++ rid)
          ++ " 开播啦!") msg ∈ (processRoom key st rid w).2) ∧
    (processRoom key (processRoom key st rid w).1 rid w').2 = [] ∧
    lookupStatus
        (processRoom key (processRoom key st rid w).1 rid w').1.room_status rid
      = some true := by
  have hlive := check_room_status_fst_primary_live st.room_names rid w j hw he hl
  have hinfo : (check_room_status st.room_names rid w).2.1
      = j.data.getD Dict.nil := by
    rw [check_room_status_info, get_room_info_primary st.room_names rid w j hw he]
  have h1 := processRoom_newly_live key st rid w hst hlive
  have hstat1 : lookupStatus (processRoom key st rid w).1.room_status rid
      = some true := by
    rw [h1]
    exact lookupStatus_setStatus_self ..
  have hlive' := check_room_status_fst_primary_live
    (processRoom key st rid w).1.room_names rid w' j' hw' he' hl'
  have h2 := processRoom_unchanged key (processRoom key st rid w).1 rid w'
    true hstat1 hlive'
  refine ⟨hstat1, ?_, ?_, ?_, ?_⟩
  · rw [h1]
    dsimp only
    rw [hinfo]
  · refine ⟨"房间: " ++ Dict.getD (j.data.getD Dict.nil) "room_name"
        ("房间" ++ rid) ++ "\n时间: " ++ w.now, ?_⟩
    rw [h1]
    dsimp only
    rw [hinfo]
    exact notify_local_mem ..
  · rw [h2]
  · rw [h2]
    exact hstat1

/-- C6 witness: room `"7"` tracked as offline, two identical
success-marked live primary responses. -/
theorem claim6_newly_live_then_unchanged_witness :
    lookupStatus (⟨[("7", false)], [], Dict.nil⟩ : MonitorState).room_status "7"
      = some false ∧
    (lookupStatus (processRoom none ⟨[("7", false)], [], Dict.nil⟩ "7"
        ⟨some ⟨some 0, some [("room_status", "1"), ("owner_name", "O"),
          ("room_name", "N")]⟩, none, none, false, "T"⟩).1.room_status "7"
      = some true ∧
    (processRoom none ⟨[("7", false)], [], Dict.nil⟩ "7"
        ⟨some ⟨some 0, some [("room_status", "1"), ("owner_name", "O"),
          ("room_name", "N")]⟩, none, none, false, "T"⟩).1.new_live_rooms
      = ([("7", [("room_status", "1"), ("owner_name", "O"),
          ("room_name", "N")])] : List (String × Dict)) ∧
    (∃ msg, NotifyEvent.localNotify
        ("🔴 " ++ Dict.getD [("room_status", "1"), ("owner_name", "O"),
            ("room_name", "N")] "owner_name" ("主播" ++ "7") ++ " 开播啦!") msg
        ∈ (processRoom none ⟨[("7", false)], [], Dict.nil⟩ "7"
            ⟨some ⟨some 0, some [("room_status", "1"), ("owner_name", "O"),
              ("room_name", "N")]⟩, none, none, false, "T"⟩).2) ∧
    (processRoom none (processRoom none ⟨[("7", false)], [], Dict.nil⟩ "7"
        ⟨some ⟨some 0, some [("room_status", "1"), ("owner_name", "O"),
          ("room_name", "N")]⟩, none, none, false, "T"⟩).1 "7"
        ⟨some ⟨some 0, some [("room_status", "1"), ("owner_name", "O"),
          ("room_name", "N")]⟩, none, none, false, "T"⟩).2 = [] ∧
    lookupStatus (processRoom none
        (processRoom none ⟨[("7", false)], [], Dict.nil⟩ "7"
          ⟨some ⟨some 0, some [("room_status", "1"), ("owner_name", "O"),
            ("room_name", "N")]⟩, none, none, false, "T"⟩).1 "7"
        ⟨some ⟨some 0, some [("room_status", "1"), ("owner_name", "O"),
          ("room_name", "N")]⟩, none, none, false, "T"⟩).1.room_status "7"
      = some true) :=
  ⟨by decide,
   claim6_newly_live_then_unchanged none ⟨[("7", false)], [], Dict.nil⟩ "7"
     ⟨some ⟨some 0, some [("room_status", "1"), ("owner_name", "O"),
       ("room_name", "N")]⟩, none, none, false, "T"⟩
     ⟨some ⟨some 0, some [("room_status", "1"), ("owner_name", "O"),
       ("room_name", "N")]⟩, none, none, false, "T"⟩
     (by decide)
     ⟨some 0, some [("room_status", "1"), ("owner_name", "O"),
       ("room_name", "N")]⟩
     ⟨some 0, some [("room_status", "1"), ("owner_name", "O"),
       ("room_name", "N")]⟩
     rfl rfl (by decide) rfl rfl (by decide)⟩

/-! ## Claim C7 -/

/-- C7 counterexample: in the world where every source raises, the
resolution of room `"7"` issues the primary-API GET without any
`timeout=` argument, refuting "every network call made during
room-status resolution is issued with an explicit timeout bound" (the
primary `requests.get(url, headers=...)` at the top of `get_room_info`
carries no timeout). -/
theorem claim7_primary_call_has_no_timeout :
    ¬ (∀ c ∈ (get_room_info Dict.nil "7"
        ⟨none, none, none, false, ""⟩).2, c.timeout.isSome = true) := by
  decide

/-- C7 amended: every network call made during room-status resolution
except the primary-API GET carries `timeout=10`; the primary-API GET is
issued with no timeout bound. -/
theorem claim7_all_calls_but_primary_timeout (names : Dict) (rid : String)
    (w : RoomWorld) (c : HttpCall)
    (hc : c ∈ (get_room_info names rid w).2) :
    c = ⟨primaryUrl rid, none⟩ ∨ c.timeout = some 10 := by
  rcases get_room_info_calls names rid w with h | h
  · rw [h] at hc
    left
    simpa using hc
  · rw [h] at hc
    rcases List.mem_cons.mp hc with hc1 | hc2
    · left
      exact hc1
    · right
      rcases backup_calls names rid w with hb | hb
      · rw [hb] at hc2
        have : c = ⟨mobileUrl rid, some 10⟩ := by simpa using hc2
        rw [this]
      · rw [hb] at hc2
        rcases List.mem_cons.mp hc2 with hc3 | hc4
        · rw [hc3]
        · have : c = ⟨pcUrl rid, some 10⟩ := by simpa using hc4
          rw [this]

/-- C7 amended, witness: the all-raise world at room `"7"`, checked for
each of the three calls of the trace. -/
theorem claim7_all_calls_but_primary_timeout_witness :
    (⟨primaryUrl "7", none⟩ : HttpCall) ∈
      (get_room_info Dict.nil "7" ⟨none, none, none, false, ""⟩).2 ∧
    ((⟨primaryUrl "7", none⟩ : HttpCall) = ⟨primaryUrl "7", none⟩ ∨
      (⟨primaryUrl "7", none⟩ : HttpCall).timeout = some 10) ∧
    (⟨mobileUrl "7", some 10⟩ : HttpCall) ∈
      (get_room_info Dict.nil "7" ⟨none, none, none, false, ""⟩).2 ∧
    ((⟨mobileUrl "7", some 10⟩ : HttpCall) = ⟨primaryUrl "7", none⟩ ∨
      (⟨mobileUrl "7", some 10⟩ : HttpCall).timeout = some 10) :=
  ⟨by decide,
   claim7_all_calls_but_primary_timeout Dict.nil "7"
     ⟨none, none, none, false, ""⟩ ⟨primaryUrl "7", none⟩ (by decide),
   by decide,
   claim7_all_calls_but_primary_timeout Dict.nil "7"
     ⟨none, none, none, false, ""⟩ ⟨mobileUrl "7", some 10⟩ (by decide)⟩

/-! ## Claim C8 -/

/-- C8 confirmed: an exception raised while processing one room (here
the `KeyError` from `self.room_status[room_id]` for an untracked room,
raised after the resolution and cache update already ran) is caught
inside that room's iteration: the failing room contributes no
notification and no state change beyond the already-applied cache
update, and the rest of the cycle is exactly the cycle over the
remaining rooms — every remaining room is still processed, and the
(total) cycle returns normally so the polling loop continues. -/
theorem claim8_per_room_failure_isolation (key : Option String)
    (ws : String → RoomWorld) (a : String) (rest : List String)
    (st : MonitorState) (ha : lookupStatus st.room_status a = none) :
    (processRoom key st a (ws a)).2 = [] ∧
    (processRoom key st a (ws a)).1.room_status = st.room_status ∧
    (processRoom key st a (ws a)).1.new_live_rooms = st.new_live_rooms ∧
    runCycle key ws (a :: rest) st
      = runCycle key ws rest (processRoom key st a (ws a)).1 := by
  have h := processRoom_keyerror key st a (ws a) ha
  refine ⟨by rw [h], by rw [h], by rw [h], ?_⟩
  show ((runCycle key ws rest (processRoom key st a (ws a)).1).1,
      (processRoom key st a (ws a)).2 ++
        (runCycle key ws rest (processRoom key st a (ws a)).1).2)
    = runCycle key ws rest (processRoom key st a (ws a)).1
  rw [h]
  dsimp only
  rw [List.nil_append]

/-- C8 witness: untracked room `"9"` raises; tracked room `"8"` with a
live primary response is still processed in the same cycle and its
newly-live transition lands in the final state. -/
theorem claim8_per_room_failure_isolation_witness :
    lookupStatus (⟨[("8", false)], [], Dict.nil⟩ : MonitorState).room_status "9"
      = none ∧
    ((processRoom none ⟨[("8", false)], [], Dict.nil⟩ "9"
        ⟨some ⟨some 0, some [("room_status", "1")]⟩, none, none, false,
          "T"⟩).2 = [] ∧
     (processRoom none ⟨[("8", false)], [], Dict.nil⟩ "9"
        ⟨some ⟨some 0, some [("room_status", "1")]⟩, none, none, false,
          "T"⟩).1.room_status = [("8", false)] ∧
     (processRoom none ⟨[("8", false)], [], Dict.nil⟩ "9"
        ⟨some ⟨some 0, some [("room_status", "1")]⟩, none, none, false,
          "T"⟩).1.new_live_rooms = [] ∧
     runCycle none (fun _ => ⟨some ⟨some 0, some [("room_status", "1")]⟩,
        none, none, false, "T"⟩) ["9", "8"] ⟨[("8", false)], [], Dict.nil⟩
       = runCycle none (fun _ => ⟨some ⟨some 0, some [("room_status", "1")]⟩,
          none, none, false, "T"⟩) ["8"]
          (processRoom none ⟨[("8", false)], [], Dict.nil⟩ "9"
            ⟨some ⟨some 0, some [("room_status", "1")]⟩, none, none, false,
              "T"⟩).1) ∧
    lookupStatus (runCycle none
        (fun _ => ⟨some ⟨some 0, some [("room_status", "1")]⟩, none, none,
          false, "T"⟩) ["9", "8"]
        ⟨[("8", false)], [], Dict.nil⟩).1.room_status "8" = some true :=
  ⟨by decide,
   claim8_per_room_failure_isolation none
     (fun _ => ⟨some ⟨some 0, some [("room_status", "1")]⟩, none, none,
       false, "T"⟩) "9" ["8"] ⟨[("8", false)], [], Dict.nil⟩ (by decide),
   by decide⟩

/-! ## Claim C9 -/

/-- C9 confirmed: when two rooms both transition to newly-live in one
poll cycle (both stored offline, both resolving live via success-marked
primary responses, pending list empty at cycle start), the pending list
holds exactly those two entries at the end of the cycle; and for every
selection outcome — a valid pick, the zero choice, an invalid number, or
non-numeric input (`choice = none`, the `ValueError` case) —
`handle_new_live_rooms` leaves the pending list empty. -/
theorem claim9_two_newly_live_then_cleared (key : Option String)
    (ws : String → RoomWorld) (a b : String) (st : MonitorState)
    (hab : a ≠ b) (hpend : st.new_live_rooms = [])
    (ha : lookupStatus st.room_status a = some false)
    (hb : lookupStatus st.room_status b = some false)
    (ja jb : PrimaryJson)
    (hwa : (ws a).primary = some ja) (hea : ja.error = some 0)
    (hla : Dict.get? (ja.data.getD Dict.nil) "room_status" = some "1")
    (hwb : (ws b).primary = some jb) (heb : jb.error = some 0)
    (hlb : Dict.get? (jb.data.getD Dict.nil) "room_status" = some "1") :
    (runCycle key ws [a, b] st).1.new_live_rooms
      = [(a, ja.data.getD Dict.nil), (b, jb.data.getD Dict.nil)] ∧
    (∀ auto_open choice,
      (handle_new_live_rooms auto_open choice
        (runCycle key ws [a, b] st).1).1.new_live_rooms = []) := by
  have hlivea := check_room_status_fst_primary_live st.room_names a (ws a)
    ja hwa hea hla
  have hinfoa : (check_room_status st.room_names a (ws a)).2.1
      = ja.data.getD Dict.nil := by
    rw [check_room_status_info, get_room_info_primary st.room_names a (ws a)
      ja hwa hea]
  have h1 := processRoom_newly_live key st a (ws a) ha hlivea
  have hstb : lookupStatus (processRoom key st a (ws a)).1.room_status b
      = some false := by
    rw [h1]
    dsimp only
    rw [lookupStatus_setStatus_ne st.room_status a b true
      (fun hba => hab hba.symm)]
    exact hb
  have hliveb := check_room_status_fst_primary_live
    (processRoom key st a (ws a)).1.room_names b (ws b) jb hwb heb hlb
  have hinfob : (check_room_status (processRoom key st a (ws a)).1.room_names
      b (ws b)).2.1 = jb.data.getD Dict.nil := by
    rw [check_room_status_info, get_room_info_primary
      (processRoom key st a (ws a)).1.room_names b (ws b) jb hwb heb]
  have h2 := processRoom_newly_live key (processRoom key st a (ws a)).1 b
    (ws b) hstb hliveb
  have hcycle : (runCycle key ws [a, b] st).1
      = (processRoom key (processRoom key st a (ws a)).1 b (ws b)).1 := rfl
  constructor
  · rw [hcycle, h2]
    dsimp only
    rw [hinfob, h1]
    dsimp only
    rw [hinfoa, hpend]
    rfl
  · intro auto_open choice
    exact handle_new_live_rooms_clears auto_open choice _

/-- C9 witness: rooms `"1"` and `"2"`, both stored offline, both
resolving live; the clearing conclusion instantiated over all four
selection outcomes by the universally quantified conjunct. -/
theorem claim9_two_newly_live_then_cleared_witness :
    ("1" : String) ≠ "2" ∧
    ((runCycle none (fun _ => ⟨some ⟨some 0, some [("room_status", "1")]⟩,
        none, none, false, "T"⟩) ["1", "2"]
        ⟨[("1", false), ("2", false)], [], Dict.nil⟩).1.new_live_rooms
      = [("1", [("room_status", "1")]), ("2", [("room_status", "1")])] ∧
     (∀ auto_open choice,
       (handle_new_live_rooms auto_open choice
         (runCycle none (fun _ => ⟨some ⟨some 0, some [("room_status", "1")]⟩,
           none, none, false, "T"⟩) ["1", "2"]
           ⟨[("1", false), ("2", false)], [], Dict.nil⟩).1).1.new_live_rooms
         = [])) :=
  ⟨by decide,
   claim9_two_newly_live_then_cleared none
     (fun _ => ⟨some ⟨some 0, some [("room_status", "1")]⟩, none, none,
       false, "T"⟩) "1" "2" ⟨[("1", false), ("2", false)], [], Dict.nil⟩
     (by decide) rfl (by decide) (by decide)
     ⟨some 0, some [("room_status", "1")]⟩
     ⟨some 0, some [("room_status", "1")]⟩
     rfl rfl (by decide) rfl rfl (by decide)⟩

/-! ## Claim C10 -/

/-- C10 confirmed: when every network source fails in one poll for a
room whose stored status is `true` (primary raises, mobile fetch raises,
PC API raises), the cache fallback reports `room_status = '2'`, so
`check_room_status` returns live = `false`, and the loop records a
newly-offline transition: the stored status flips to `false` and a
stopped-streaming notification is dispatched — a purely transient
outage produces a spurious offline alert. -/
theorem claim10_transient_outage_spurious_offline (key : Option String)
    (st : MonitorState) (rid : String) (w : RoomWorld)
    (hp : w.primary = none) (hm : w.mobile = none) (hpc : w.pc = none)
    (hst : lookupStatus st.room_status rid = some true) :
    Dict.get? ((get_room_info st.room_names rid w).1) "room_status"
      = some "2" ∧
    (check_room_status st.room_names rid w).1 = false ∧
    lookupStatus (processRoom key st rid w).1.room_status rid = some false ∧
    (∃ ow msg, NotifyEvent.localNotify ("⚪ " ++ ow ++ " 已下播") msg
        ∈ (processRoom key st rid w).2) := by
  have hps : primarySuccess w = false := by
    unfold primarySuccess
    rw [hp]
  have hgri : (get_room_info st.room_names rid w).1
      = pcFallback st.room_names rid := by
    rw [get_room_info_of_not_primarySuccess st.room_names rid w hps]
    exact backup_all_raise st.room_names rid w hm hpc
  have hstatus : Dict.get? ((get_room_info st.room_names rid w).1)
      "room_status" = some "2" := by
    rw [hgri]
    exact pcFallback_room_status st.room_names rid
  have hlive : (check_room_status st.room_names rid w).1 = false := by
    rw [check_room_status_fst, hstatus]
    decide
  have h := processRoom_newly_offline key st rid w hst hlive
  refine ⟨hstatus, hlive, ?_, ?_⟩
  · rw [h]
    exact lookupStatus_setStatus_self ..
  · refine ⟨Dict.getD ((check_room_status st.room_names rid w).2.1)
        "owner_name" ("主播" ++ rid),
      "房间: " ++ Dict.getD ((check_room_status st.room_names rid w).2.1)
        "room_name" ("房间" ++ rid) ++ "\n时间: " ++ w.now, ?_⟩
    rw [h]
    exact notify_local_mem ..

/-- C10 witness: room `"7"` stored live, all three sources raise,
cached name `"Alice"`. -/
theorem claim10_transient_outage_spurious_offline_witness :
    lookupStatus (⟨[("7", true)], [], [("7", "Alice")]⟩ :
      MonitorState).room_status "7" = some true ∧
    (Dict.get? ((get_room_info [("7", "Alice")] "7"
        ⟨none, none, none, false, "T"⟩).1) "room_status" = some "2" ∧
     (check_room_status [("7", "Alice")] "7"
        ⟨none, none, none, false, "T"⟩).1 = false ∧
     lookupStatus (processRoom none ⟨[("7", true)], [], [("7", "Alice")]⟩ "7"
        ⟨none, none, none, false, "T"⟩).1.room_status "7" = some false ∧
     (∃ ow msg, NotifyEvent.localNotify ("⚪ " ++ ow ++ " 已下播") msg
        ∈ (processRoom none ⟨[("7", true)], [], [("7", "Alice")]⟩ "7"
            ⟨none, none, none, false, "T"⟩).2)) :=
  ⟨by decide,
   claim10_transient_outage_spurious_offline none
     ⟨[("7", true)], [], [("7", "Alice")]⟩ "7"
     ⟨none, none, none, false, "T"⟩ rfl rfl rfl (by decide)⟩

end Douyu
